import Mathlib

/-!
Verification of the battery-health dashboard logic
(`app.py`, variant 1, and `editapp.py`, variant 2).

The numeric computations are embedded over `ℚ`.  The two scripts share the
same formulas except for the base degradation rate (8 in variant 1, 6 in
variant 2) and the WARNING threshold (75 in variant 1, 60 in variant 2), so
the health formula is parameterised by the base rate and the two status
classifiers are given separately.  The session-scoped alert logic of
variant 2 is embedded as an explicit step function on the recorded status.
-/

namespace Battery

/-- Source: `degradation_factor = 1.2 ** (temp_input - 25)` (both variants). -/
def degradation_factor (tempC : ℤ) : ℚ := (6 / 5 : ℚ) ^ (tempC - 25)

/-- Source: `current_health = 100 - (time_projection * baseRate * degradation_factor)`
followed by `current_health = max(0, min(100, current_health))`;
`baseRate` is `8` in `app.py` and `6` in `editapp.py`. -/
def current_health (years : ℤ) (baseRate : ℚ) (tempC : ℤ) : ℚ :=
  max 0 (min 100 (100 - (years : ℚ) * baseRate * degradation_factor tempC))

/-- The status labels used by both scripts. -/
inductive Status where
  | HEALTHY
  | WARNING
  | CRITICAL
deriving DecidableEq, Repr

/-- Variant 1 (`app.py` line 31):
`status = "CRITICAL" if current_health < 50 else "WARNING" if current_health < 75 else "HEALTHY"`. -/
def status1 (h : ℚ) : Status :=
  if h < 50 then Status.CRITICAL else if h < 75 then Status.WARNING else Status.HEALTHY

/-- Variant 2 (`editapp.py` lines 39-66): the same branch conditions that drive
the alert block, thresholds 50 and 60. -/
def status2 (h : ℚ) : Status :=
  if h < 50 then Status.CRITICAL else if h < 60 then Status.WARNING else Status.HEALTHY

/-- Result of one evaluation of the alert block of `editapp.py`:
the computed status, the recorded status after the evaluation
(`st.session_state.last_status`), whether a toast was emitted, and whether
the audio cue was emitted. -/
structure StepResult where
  status : Status
  last : Option Status
  toast : Bool
  audio : Bool
deriving DecidableEq, Repr

/-- The alert block of `editapp.py` lines 39-66, as a function of the
previously recorded status (`st.session_state.get('last_status')`, `none`
when absent) and the freshly computed `current_health`. -/
def alert_step (last : Option Status) (h : ℚ) : StepResult :=
  if h < 50 then
    if last ≠ some Status.CRITICAL then
      ⟨Status.CRITICAL, some Status.CRITICAL, true, true⟩
    else
      ⟨Status.CRITICAL, last, false, false⟩
  else if h < 60 then
    if last ≠ some Status.WARNING then
      ⟨Status.WARNING, some Status.WARNING, true, false⟩
    else
      ⟨Status.WARNING, last, false, false⟩
  else
    ⟨Status.HEALTHY, some Status.HEALTHY, false, false⟩

/-- The alert block factored through the computed status: `alert_step last h`
behaves as `alert_step_s last (status2 h)` (proved in
`alert_step_factors` below). -/
def alert_step_s (last : Option Status) (s : Status) : Option Status × Bool :=
  match s with
  | Status.CRITICAL =>
      if last ≠ some Status.CRITICAL then (some Status.CRITICAL, true) else (last, false)
  | Status.WARNING =>
      if last ≠ some Status.WARNING then (some Status.WARNING, true) else (last, false)
  | Status.HEALTHY => (some Status.HEALTHY, false)

/-- Iterating the alert block over a sequence of computed statuses, returning
the emission flag of each evaluation. -/
def alert_run (last : Option Status) : List Status → List Bool
  | [] => []
  | s :: rest =>
      let r := alert_step_s last s
      r.2 :: alert_run r.1 rest

/-- Source: `total_risk = (100 - current_health) * 31 * (replacement_cost / 100)`
(both variants). -/
def total_risk (cost h : ℚ) : ℚ := (100 - h) * 31 * (cost / 100)

/-- Source: `months = np.arange(0, 25)`; `health_curve = 100 - (months * 2 * degradation_factor)`
(both variants), stored unclamped. -/
def health_curve (deg : ℚ) : List ℚ :=
  (List.range 25).map (fun (m : ℕ) => 100 - (m : ℚ) * 2 * deg)

/-- The heatmap grid loop (both variants, rate 8 in each):
`block_health = 100 - (time_projection * 8 * degradation_factor * individual_variance)`,
appended as `max(0, block_health)` for 30 blocks; `jitter i` stands for the
i-th draw of `np.random.uniform(0.8, 1.2)`. -/
def grid_health (years : ℤ) (deg : ℚ) (jitter : ℕ → ℚ) : List ℚ :=
  (List.range 30).map (fun i => max 0 (100 - (years : ℚ) * 8 * deg * jitter i))

/-- Source: `grid_data = np.array(grid_health).reshape(6, 5)`: row-major reshape into
6 rows of 5 columns. -/
def grid_data (years : ℤ) (deg : ℚ) (jitter : ℕ → ℚ) : List (List ℚ) :=
  (List.range 6).map (fun r =>
    (List.range 5).map (fun c => (grid_health years deg jitter).getD (5 * r + c) 0))

/-- All observable outputs of one render of `editapp.py`, as a function of
every input of the script: the three sidebar parameters, the selected block
(`Block_(b+1)` for `b : Fin 30`), the recorded alert status, and the random
jitter draws.  The body follows the script top to bottom; `selectedBlock`
is read at line 15 and never used afterwards. -/
def run2 (tempC years : ℤ) (cost : ℚ) (selectedBlock : Fin 30) (last : Option Status)
    (jitter : ℕ → ℚ) : ℚ × StepResult × ℚ × List ℚ × List (List ℚ) :=
  let deg := degradation_factor tempC
  let h := current_health years 6 tempC
  let r := alert_step last h
  (h, r, total_risk cost h, health_curve deg, grid_data years deg jitter)

/-! ## Helper lemmas -/

theorem degradation_factor_pos (tempC : ℤ) : 0 < degradation_factor tempC :=
  zpow_pos (by norm_num) _

theorem degradation_factor_at_40 : degradation_factor 40 = (6 / 5 : ℚ) ^ (15 : ℕ) := by
  have h : ((40 : ℤ) - 25) = ((15 : ℕ) : ℤ) := by norm_num
  rw [degradation_factor, h, zpow_natCast]

theorem alert_step_factors (last : Option Status) (h : ℚ) :
    ((alert_step last h).last, (alert_step last h).toast) = alert_step_s last (status2 h) := by
  unfold alert_step alert_step_s status2
  by_cases h50 : h < 50 <;> by_cases h60 : h < 60 <;>
    simp [h50, h60] <;> split <;> simp_all

/-! ## Claim theorems -/

/-- C1: for every input within the documented bounds (tempC in [20,40],
years in [1,10], any base rate), `current_health` — the clamp of
`100 - years*baseRate*1.2^(tempC-25)` — lies in [0,100]; and at
tempC = 40, years = 9, baseRate = 8 it clamps to 0 with status CRITICAL
under both variants' classifiers. -/
theorem clamp_invariant_and_hot_case :
    (∀ (tempC years : ℤ) (baseRate : ℚ), 20 ≤ tempC → tempC ≤ 40 → 1 ≤ years → years ≤ 10 →
      0 ≤ current_health years baseRate tempC ∧ current_health years baseRate tempC ≤ 100) ∧
    current_health 9 8 40 = 0 ∧ status1 (current_health 9 8 40) = Status.CRITICAL ∧
    status2 (current_health 9 8 40) = Status.CRITICAL := by
  have hval : current_health 9 8 40 = 0 := by
    have hneg : (100 - ((9 : ℤ) : ℚ) * 8 * degradation_factor 40) < 0 := by
      rw [degradation_factor_at_40]; norm_num
    rw [current_health, min_eq_right (by linarith), max_eq_left hneg.le]
  refine ⟨fun tempC years baseRate _ _ _ _ => ⟨le_max_left _ _, ?_⟩, hval, ?_, ?_⟩
  · exact max_le (by norm_num) (min_le_left _ _)
  · rw [hval]; norm_num [status1]
  · rw [hval]; norm_num [status2]

/-- C1 witness: the clamp invariant instantiated at tempC = 25, years = 1,
baseRate = 8. -/
theorem clamp_invariant_and_hot_case_witness :
    (20 : ℤ) ≤ 25 ∧ (25 : ℤ) ≤ 40 ∧ (1 : ℤ) ≤ 1 ∧ (1 : ℤ) ≤ 10 ∧
    0 ≤ current_health 1 8 25 ∧ current_health 1 8 25 ≤ 100 :=
  ⟨by norm_num, by norm_num, by norm_num, by norm_num,
   clamp_invariant_and_hot_case.1 25 1 8 (by norm_num) (by norm_num) (by norm_num) (by norm_num)⟩

/-- C2: on [0,100] (in fact everywhere), both classifiers are the threshold
functions of the spec: CRITICAL iff h < 50; WARNING iff 50 ≤ h < 75
(variant 1) resp. 50 ≤ h < 60 (variant 2); HEALTHY otherwise. -/
theorem status_thresholds (h : ℚ) (h0 : 0 ≤ h) (h100 : h ≤ 100) :
    (status1 h = Status.CRITICAL ↔ h < 50) ∧
    (status1 h = Status.WARNING ↔ 50 ≤ h ∧ h < 75) ∧
    (status1 h = Status.HEALTHY ↔ 75 ≤ h) ∧
    (status2 h = Status.CRITICAL ↔ h < 50) ∧
    (status2 h = Status.WARNING ↔ 50 ≤ h ∧ h < 60) ∧
    (status2 h = Status.HEALTHY ↔ 60 ≤ h) := by
  refine ⟨?_, ?_, ?_, ?_, ?_, ?_⟩ <;> simp only [status1, status2] <;>
    split_ifs <;> simp_all <;> linarith

/-- C2 witness: the WARNING characterisation of variant 1 at h = 55. -/
theorem status_thresholds_witness :
    (0 : ℚ) ≤ 55 ∧ (55 : ℚ) ≤ 100 ∧
    (status1 55 = Status.WARNING ↔ (50 : ℚ) ≤ 55 ∧ (55 : ℚ) < 75) :=
  ⟨by norm_num, by norm_num, (status_thresholds 55 (by norm_num) (by norm_num)).2.1⟩

/-- C6: the degradation factor equals 1 at tempC = 25, is strictly monotone
in tempC on [20,40], stays below 1 for tempC < 25 and above 1 for
tempC > 25. -/
theorem degradation_factor_monotone :
    degradation_factor 25 = 1 ∧
    (∀ t1 t2 : ℤ, 20 ≤ t1 → t1 < t2 → t2 ≤ 40 →
      degradation_factor t1 < degradation_factor t2) ∧
    (∀ t : ℤ, 20 ≤ t → t < 25 → degradation_factor t < 1) ∧
    (∀ t : ℤ, 25 < t → t ≤ 40 → 1 < degradation_factor t) := by
  refine ⟨by simp [degradation_factor], fun t1 t2 _ hlt _ => ?_, fun t _ ht => ?_,
    fun t ht _ => ?_⟩
  · exact zpow_lt_zpow_right₀ (by norm_num) (by omega)
  · exact zpow_lt_one_of_neg₀ (by norm_num) (by omega)
  · exact one_lt_zpow₀ (by norm_num) (by omega)

/-- C6 witness: strict monotonicity instantiated at tempC = 26 < 27. -/
theorem degradation_factor_monotone_witness :
    (20 : ℤ) ≤ 26 ∧ (26 : ℤ) < 27 ∧ (27 : ℤ) ≤ 40 ∧
    degradation_factor 26 < degradation_factor 27 :=
  ⟨by norm_num, by norm_num, by norm_num,
   degradation_factor_monotone.2.1 26 27 (by norm_num) (by norm_num) (by norm_num)⟩

/-- C3 counterexample: with recorded status WARNING and health 70, the newly
computed status is HEALTHY — different from the recorded one — yet neither a
toast nor the audio cue is emitted. -/
theorem alert_no_emit_on_healthy_transition :
    status2 70 = Status.HEALTHY ∧ status2 70 ≠ Status.WARNING ∧
    (alert_step (some Status.WARNING) 70).toast = false ∧
    (alert_step (some Status.WARNING) 70).audio = false := by
  have h2 : status2 70 = Status.HEALTHY := by norm_num [status2]
  refine ⟨h2, by rw [h2]; decide, ?_, ?_⟩ <;> norm_num [alert_step]

/-- C3 amended: on each evaluation the recorded status is updated to the new
status; a toast is emitted iff the new status differs from the recorded one
AND the new status is WARNING or CRITICAL (a transition to HEALTHY emits
nothing); the audio cue accompanies exactly the CRITICAL toast; an unchanged
status never emits. -/
theorem alert_step_spec (last : Option Status) (h : ℚ) :
    (alert_step last h).status = status2 h ∧
    (alert_step last h).last = some (status2 h) ∧
    ((alert_step last h).toast = true ↔
      some (status2 h) ≠ last ∧ status2 h ≠ Status.HEALTHY) ∧
    ((alert_step last h).audio = true ↔
      (alert_step last h).toast = true ∧ status2 h = Status.CRITICAL) := by
  unfold alert_step status2
  split_ifs <;> simp_all <;> tauto

/-- C3 witness: the amended emission rule at recorded status HEALTHY and
health 55 (new status WARNING, which differs, so the toast fires). -/
theorem alert_step_spec_witness :
    (alert_step (some Status.HEALTHY) 55).toast = true ↔
      some (status2 55) ≠ some Status.HEALTHY ∧ status2 55 ≠ Status.HEALTHY :=
  (alert_step_spec (some Status.HEALTHY) 55).2.2.1

/-- C4: starting from an absent recorded status, the status sequence
[HEALTHY, WARNING, WARNING, CRITICAL, WARNING] emits exactly at indices
1, 3 and 4; the first evaluation emits iff the first status is WARNING or
CRITICAL; and the status-level step indeed reproduces the health-level
alert block. -/
theorem alert_run_example :
    alert_run none [Status.HEALTHY, Status.WARNING, Status.WARNING,
      Status.CRITICAL, Status.WARNING] = [false, true, false, true, true] ∧
    (∀ s : Status, (alert_step_s none s).2 = true ↔
      (s = Status.WARNING ∨ s = Status.CRITICAL)) ∧
    (∀ (last : Option Status) (h : ℚ),
      ((alert_step last h).last, (alert_step last h).toast) =
        alert_step_s last (status2 h)) := by
  refine ⟨by decide, fun s => by cases s <;> simp [alert_step_s], alert_step_factors⟩

/-- C4 witness: the first-evaluation rule instantiated at CRITICAL. -/
theorem alert_run_example_witness :
    (alert_step_s none Status.CRITICAL).2 = true ↔
      (Status.CRITICAL = Status.WARNING ∨ Status.CRITICAL = Status.CRITICAL) :=
  alert_run_example.2.1 Status.CRITICAL

/-- C5 counterexample: with cost = 0 (within the documented bound cost ≥ 0)
and the health 92 computed from in-range inputs (tempC = 25, years = 1,
baseRate = 8), the risk value is 0 although the health percent is not 100. -/
theorem risk_zero_at_zero_cost :
    current_health 1 8 25 = 92 ∧ total_risk 0 (current_health 1 8 25) = 0 ∧
    current_health 1 8 25 ≠ 100 := by
  have hdeg : degradation_factor 25 = 1 := by simp [degradation_factor]
  have h92 : current_health 1 8 25 = 92 := by
    rw [current_health, hdeg]; norm_num [min_def, max_def]
  refine ⟨h92, ?_, ?_⟩ <;> rw [h92]
  · simp [total_risk]
  · norm_num

/-- C5 amended: riskValue is exactly (100 - healthPercent) * 31 * (cost/100),
and for strictly positive cost it vanishes exactly when healthPercent = 100
(at cost = 0 it vanishes for every health value). -/
theorem risk_zero_iff (cost h : ℚ) (hc : 0 < cost) :
    total_risk cost h = (100 - h) * 31 * (cost / 100) ∧
    (total_risk cost h = 0 ↔ h = 100) := by
  refine ⟨rfl, ?_⟩
  unfold total_risk
  rw [mul_eq_zero, mul_eq_zero, div_eq_zero_iff]
  constructor
  · rintro ((h1 | h2) | (h3 | h4))
    · linarith
    · norm_num at h2
    · exact absurd h3 hc.ne'
    · norm_num at h4
  · intro he; left; left; rw [he]; ring

/-- C5 witness: the amended equivalence at cost = 500 and health 100. -/
theorem risk_zero_iff_witness :
    (0 : ℚ) < 500 ∧ (total_risk 500 100 = 0 ↔ (100 : ℚ) = 100) :=
  ⟨by norm_num, (risk_zero_iff 500 100 (by norm_num)).2⟩

/-- C7: the decay curve is exactly the 25 points month = 0..24 with
unclamped value 100 - month*2*degradationFactor, and the value at month 0
is exactly 100, for every degradation factor. -/
theorem health_curve_spec (deg : ℚ) :
    (health_curve deg).length = 25 ∧
    (∀ k, k < 25 → (health_curve deg).getD k 0 = 100 - (k : ℚ) * 2 * deg) ∧
    (health_curve deg).getD 0 0 = 100 := by
  have hlen : (health_curve deg).length = 25 := by
    rw [health_curve, List.length_map, List.length_range]
  have hval : ∀ k, k < 25 → (health_curve deg).getD k 0 = 100 - (k : ℚ) * 2 * deg := by
    intro k hk
    rw [List.getD_eq_getElem _ _ (by rw [hlen]; exact hk)]
    simp only [health_curve, List.getElem_map, List.getElem_range]
  refine ⟨hlen, hval, ?_⟩
  rw [hval 0 (by norm_num)]; norm_num

/-- C7 witness: the curve point at month 3 for degradation factor 1. -/
theorem health_curve_spec_witness :
    3 < 25 ∧ (health_curve 1).getD 3 0 = 100 - (3 : ℚ) * 2 * 1 :=
  ⟨by norm_num, (health_curve_spec 1).2.1 3 (by norm_num)⟩

/-- C8: for every years, degradation factor and jitter sequence within
[0.8, 1.2], the grid holds exactly 30 values, the i-th being
max(0, 100 - years*8*degradationFactor*jitter_i) (rate 8 in both variants),
and the reshaped data is 6 rows of 5 columns in row-major order. -/
theorem grid_spec (years : ℤ) (deg : ℚ) (jitter : ℕ → ℚ)
    (hj : ∀ i, (4 / 5 : ℚ) ≤ jitter i ∧ jitter i ≤ 6 / 5) :
    (grid_health years deg jitter).length = 30 ∧
    (∀ i, i < 30 → (grid_health years deg jitter).getD i 0 =
      max 0 (100 - (years : ℚ) * 8 * deg * jitter i)) ∧
    (grid_data years deg jitter).length = 6 ∧
    (∀ r, r < 6 → ((grid_data years deg jitter).getD r []).length = 5) ∧
    (∀ r c, r < 6 → c < 5 →
      ((grid_data years deg jitter).getD r []).getD c 0 =
        (grid_health years deg jitter).getD (5 * r + c) 0) := by
  have hlen : (grid_health years deg jitter).length = 30 := by simp [grid_health]
  have hrows : (grid_data years deg jitter).length = 6 := by simp [grid_data]
  have hrow : ∀ r, r < 6 → (grid_data years deg jitter).getD r [] =
      (List.range 5).map (fun c => (grid_health years deg jitter).getD (5 * r + c) 0) := by
    intro r hr
    rw [List.getD_eq_getElem _ _ (by rw [hrows]; exact hr)]
    simp [grid_data]
  refine ⟨hlen, ?_, hrows, ?_, ?_⟩
  · intro i hi
    rw [List.getD_eq_getElem _ _ (by rw [hlen]; exact hi)]
    simp [grid_health]
  · intro r hr; rw [hrow r hr]; simp
  · intro r c hr hc
    rw [hrow r hr, List.getD_eq_getElem _ _ (by simpa using hc)]
    simp

/-- C8 witness: the grid layout at years = 1, degradation factor 1 and
constant jitter 1: 30 values, and cell (0,0) of the reshape is element 0. -/
theorem grid_spec_witness :
    (grid_health 1 1 (fun _ => 1)).length = 30 ∧
    ((grid_data 1 1 (fun _ => 1)).getD 0 []).getD 0 0 =
      (grid_health 1 1 (fun _ => 1)).getD 0 0 :=
  ⟨(grid_spec 1 1 (fun _ => 1) (fun _ => by norm_num)).1,
   (grid_spec 1 1 (fun _ => 1) (fun _ => by norm_num)).2.2.2.2 0 0
     (by norm_num) (by norm_num)⟩

/-- C9: in variant 2 the selected block has no observable effect — two runs
with identical temperature, years, cost, recorded status and random draws
but different selected blocks produce identical outputs (health, alert
result, risk, curve, grid). -/
theorem selected_block_no_effect (tempC years : ℤ) (cost : ℚ) (last : Option Status)
    (jitter : ℕ → ℚ) (b1 b2 : Fin 30) :
    run2 tempC years cost b1 last jitter = run2 tempC years cost b2 last jitter := rfl

/-- C9 witness: concrete runs differing only in the selected block
(Block_1 versus Block_30) coincide. -/
theorem selected_block_no_effect_witness :
    run2 25 1 500 (0 : Fin 30) none (fun _ => 1) =
      run2 25 1 500 (29 : Fin 30) none (fun _ => 1) :=
  selected_block_no_effect 25 1 500 none (fun _ => 1) (0 : Fin 30) (29 : Fin 30)

/-- C10: every grid value is strictly below 100 whenever years ≥ 1, tempC is
in [20,40] and every jitter draw lies in [0.8, 1.2], because the subtracted
term years*8*degradationFactor*jitter is strictly positive. -/
theorem grid_values_lt_100 (years tempC : ℤ) (jitter : ℕ → ℚ)
    (hy : 1 ≤ years) (ht1 : 20 ≤ tempC) (ht2 : tempC ≤ 40)
    (hj : ∀ i, (4 / 5 : ℚ) ≤ jitter i ∧ jitter i ≤ 6 / 5) :
    ∀ x ∈ grid_health years (degradation_factor tempC) jitter, x < 100 := by
  intro x hx
  simp only [grid_health, List.mem_map, List.mem_range] at hx
  obtain ⟨i, _, rfl⟩ := hx
  have hd := degradation_factor_pos tempC
  have hyq : (1 : ℚ) ≤ (years : ℚ) := by exact_mod_cast hy
  have hji : (4 / 5 : ℚ) ≤ jitter i := (hj i).1
  have hpos : 0 < (years : ℚ) * 8 * degradation_factor tempC * jitter i := by
    have h1 : 0 < (years : ℚ) * 8 := by linarith
    have h2 : 0 < jitter i := by linarith
    exact mul_pos (mul_pos h1 hd) h2
  exact max_lt (by norm_num) (by linarith)

/-- C10 witness: at years = 1, tempC = 25 and constant jitter 1, the grid
value 92 is a member and is below 100. -/
theorem grid_values_lt_100_witness :
    (92 : ℚ) ∈ grid_health 1 (degradation_factor 25) (fun _ => 1) ∧ (92 : ℚ) < 100 := by
  have hdeg : degradation_factor 25 = 1 := by simp [degradation_factor]
  have hmem : (92 : ℚ) ∈ grid_health 1 (degradation_factor 25) (fun _ => 1) := by
    simp only [grid_health, List.mem_map, List.mem_range]
    exact ⟨0, by norm_num, by rw [hdeg]; norm_num [max_def]⟩
  exact ⟨hmem, grid_values_lt_100 1 25 (fun _ => 1) (by norm_num) (by norm_num)
    (by norm_num) (fun _ => by norm_num) 92 hmem⟩

end Battery
